import Mathlib

set_option maxRecDepth 8192

/-!
Shallow embedding of the ValVoice application (src/ValVoice.cpp).

Wide strings (`std::wstring`, `WCHAR[]`) are modelled as `List Char`;
narrow byte strings (`std::string`, response bodies) as `List Nat`
(each element one byte).  File contents are the full character stream;
`getLines` models the `std::getline` loop used by the loaders.
-/

abbrev Wstr := List Char

abbrev Bytes := List Nat

/-- Model of `line.find(key) == 0` on wide strings: `key` occurs at position 0. -/
def startsWithKey : Wstr → Wstr → Bool
  | [], _ => true
  | _ :: _, [] => false
  | p :: ps, c :: cs => p = c && startsWithKey ps cs

/-- Model of the `std::getline` loop: split a character stream into lines at
`'\n'`; a trailing newline does not produce a final empty line, matching
`while (std::getline(ifs, line))`. -/
def getLinesAux (acc : Wstr) : Wstr → List Wstr
  | [] => [acc.reverse]
  | c :: rest =>
    if c = '\n' then
      acc.reverse :: (if rest.isEmpty then [] else getLinesAux [] rest)
    else
      getLinesAux (c :: acc) rest

/-- Lines of a character stream; an empty stream yields no lines (the first
`getline` fails immediately at EOF). -/
def getLines : Wstr → List Wstr
  | [] => []
  | c :: rest => getLinesAux [] (c :: rest)

/-- Settings state: the globals `g_userId`, `g_isPremium`, `g_pttKey`,
`g_cartesiaApiKey` of ValVoice.cpp (lines 44-57). -/
structure Settings where
  userId : Wstr
  isPremium : Bool
  pttKey : Char
  apiKey : Wstr
deriving DecidableEq, Repr

def userIdKey : Wstr := "UserID=".toList

def premiumKey : Wstr := "Premium=".toList

def pttKeyKey : Wstr := "PTTKey=".toList

def apiKeyKey : Wstr := "CartesiaApiKey=".toList

/-- Model of `ExportSettingsToFile` (ValVoice.cpp lines 124-140): the character
stream written to `ValVoiceSettings.txt`.  All four recognized keys are
written, each line terminated by `std::endl`. -/
def ExportSettingsToFile (s : Settings) : Wstr :=
  userIdKey ++ s.userId ++ '\n' ::
  (premiumKey ++ (if s.isPremium then ['1'] else ['0']) ++ '\n' ::
  (pttKeyKey ++ s.pttKey :: '\n' ::
  (apiKeyKey ++ s.apiKey ++ ['\n'])))

/-- Model of the per-line branch chain inside `LoadSettingsFromFile`
(ValVoice.cpp lines 147-163).  Note: the `CartesiaApiKey=` branch is
commented out in the source (lines 159-162), so such lines fall through
to the final `else` and are ignored. -/
def applyLine (s : Settings) (line : Wstr) : Settings :=
  if startsWithKey userIdKey line then
    { s with userId := line.drop 7 }
  else if startsWithKey premiumKey line then
    { s with isPremium := decide (line.drop 8 = ['1']) }
  else if startsWithKey pttKeyKey line then
    match line.drop 7 with
    | [] => s
    | c :: _ => { s with pttKey := c }
  else s

/-- Model of `LoadSettingsFromFile` (ValVoice.cpp lines 142-164) applied to a
file content, starting from the current global state `s`. -/
def LoadSettingsFromFile (s : Settings) (content : Wstr) : Settings :=
  (getLines content).foldl applyLine s

/-- Model of `SaveBlockedIds` (ValVoice.cpp lines 166-170): each id followed
by a newline (`ofs << id << std::endl`). -/
def SaveBlockedIds : List Wstr → Wstr
  | [] => []
  | id :: rest => id ++ '\n' :: SaveBlockedIds rest

/-- Model of `LoadBlockedIds` (ValVoice.cpp lines 172-180): read lines,
keep the non-empty ones. -/
def LoadBlockedIds (content : Wstr) : List Wstr :=
  (getLines content).filter (fun id => id ≠ [])

/-- Model of the `IDC_BLOCK_ADD` handler (ValVoice.cpp lines 562-573):
a non-empty id is pushed at the back; an empty input is ignored. -/
def blockAdd (l : List Wstr) (id : Wstr) : List Wstr :=
  if id = [] then l else l ++ [id]

/-- Model of the `IDC_BLOCK_REMOVE` handler (ValVoice.cpp lines 574-583):
`g_blockedIds.erase(g_blockedIds.begin() + sel)`. -/
def blockRemove (l : List Wstr) (sel : Nat) : List Wstr :=
  l.eraseIdx sel

/-- UTF-8 encoding of one Unicode scalar value, as produced by
`WideCharToMultiByte(CP_UTF8, ...)` for the corresponding character. -/
def utf8EncodeChar (c : Char) : Bytes :=
  let n := c.toNat
  if n < 128 then [n]
  else if n < 2048 then [192 + n / 64, 128 + n % 64]
  else if n < 65536 then [224 + n / 4096, 128 + (n / 64) % 64, 128 + n % 64]
  else [240 + n / 262144, 128 + (n / 4096) % 64, 128 + (n / 64) % 64, 128 + n % 64]

/-- Model of `WideToUtf8` (ValVoice.cpp lines 231-237): the UTF-8 byte
sequence of a wide string. -/
def WideToUtf8 (s : Wstr) : Bytes :=
  s.flatMap utf8EncodeChar

/-- Bytes of an ASCII string literal (used for the fixed JSON/header chunks,
whose characters are all below 128). -/
def strBytes (s : String) : Bytes :=
  s.toList.map Char.toNat

/-- Voice entry, as `struct VoiceProfile` (ValVoice.cpp lines 95-98). -/
structure VoiceProfile where
  displayName : Wstr
  cartesiaVoiceId : Wstr
deriving DecidableEq, Repr

def reynaName : Wstr := "ReynaVoice".toList

def reynaId : Wstr := "cedb5081-4c32-4e5a-818f-f3b3bc0b2401".toList

/-- The statically configured voice table (ValVoice.cpp lines 101-104). -/
def voiceProfiles : List VoiceProfile :=
  [{ displayName := reynaName, cartesiaVoiceId := reynaId }]

/-- `kVoiceCount` (ValVoice.cpp line 105). -/
def kVoiceCount : Int := (voiceProfiles.length : Int)

/-- The index clamp in `SpeakFromUI` (ValVoice.cpp line 193):
`if (sel < 0 || sel >= kVoiceCount) sel = 0;`. -/
def selectVoiceIndex (sel : Int) : Int :=
  if sel < 0 ∨ kVoiceCount ≤ sel then 0 else sel

/-! Fixed text chunks of the JSON body built in `SendTtsRequest`
(ValVoice.cpp lines 718-731); the raw-string literals reproduced with
their exact whitespace.  `\x7b`/`\x7d` denote the brace characters. -/

def jsonChunk1 : String :=
  "\x7b\n        \"model_id\": \"sonic-2\",\n        \"transcript\": \""

def jsonChunk2 : String :=
  "\",\n        \"voice\": \x7b\n            \"mode\": \"id\",\n            \"id\": \""

def jsonChunk3 : String :=
  "\"\n        \x7d,\n        \"output_format\": \x7b\n            \"container\": \"wav\",\n            \"encoding\": \"pcm_f32le\",\n            \"sample_rate\": 44100\n        \x7d,\n        \"language\": \"en\"\n    \x7d"

/-- The JSON request body assembled in `SendTtsRequest` (ValVoice.cpp lines
714-731): fixed chunks with the UTF-8 encoded text and voice id spliced in. -/
def jsonBody (text voiceId : Wstr) : Bytes :=
  strBytes jsonChunk1 ++ WideToUtf8 text ++ strBytes jsonChunk2 ++
    WideToUtf8 voiceId ++ strBytes jsonChunk3

def headersChunk1 : Wstr :=
  "Content-Type: application/json\r\nCartesia-Version: 2024-06-10\r\nX-API-Key: ".toList

def headersChunk2 : Wstr :=
  "\r\n".toList

/-- The header block assembled in `SendTtsRequest` (ValVoice.cpp lines
734-737). -/
def ttsHeaders (apiKey : Wstr) : Wstr :=
  headersChunk1 ++ apiKey ++ headersChunk2

def methodPOST : Wstr := "POST".toList

def ttsPath : Wstr := "/tts/bytes".toList

/-- The HTTP request assembled by `SendTtsRequest` via `WinHttpOpenRequest`
with `WINHTTP_FLAG_SECURE` plus the headers and body passed to
`WinHttpSendRequest` (ValVoice.cpp lines 705-740). -/
structure HttpRequest where
  reqMethod : Wstr
  path : Wstr
  secure : Bool
  headers : Wstr
  body : Bytes
deriving DecidableEq, Repr

def buildTtsRequest (apiKey text voiceId : Wstr) : HttpRequest :=
  { reqMethod := methodPOST
    path := ttsPath
    secure := true
    headers := ttsHeaders apiKey
    body := jsonBody text voiceId }

/-- One iteration of the read loop in `SendTtsRequest` (ValVoice.cpp lines
767-774): either a query+read succeeds delivering some bytes, or
`WinHttpQueryDataAvailable` fails / reports zero (loop break), or
`WinHttpReadData` fails (loop break). -/
inductive ReadStep where
  | avail (bs : Bytes)
  | queryFail
  | readFail
deriving DecidableEq, Repr

/-- Bytes accumulated by the read loop: chunks are appended in order until
the step list ends (data exhausted) or a failing step breaks the loop. -/
def readLoopBytes : List ReadStep → Bytes
  | [] => []
  | ReadStep.avail bs :: rest => bs ++ readLoopBytes rest
  | ReadStep.queryFail :: _ => []
  | ReadStep.readFail :: _ => []

/-- Environment behaviour of the WinHTTP calls made by `SendTtsRequest`. -/
structure TtsEnv where
  openRequestOk : Bool
  sendOk : Bool
  receiveOk : Bool
  statusCode : Nat
  readSteps : List ReadStep
deriving DecidableEq, Repr

def ctxAPI : Wstr := "API".toList

def ctxRequest : Wstr := "Request".toList

def ctxResponse : Wstr := "Response".toList

def ctxConnection : Wstr := "Connection".toList

def ctxTTS : Wstr := "TTS".toList

def msgNoKey : Wstr := "Cartesia API key not configured".toList

def msgCreateFail : Wstr := "Failed to create HTTP request".toList

def msgSendFail : Wstr := "Failed to send HTTP request".toList

def msgRecvFail : Wstr := "Failed to receive HTTP response".toList

def msgHttpErrorHead : Wstr := "HTTP Error: ".toList

/-- The message `wsprintf(errorMsg, L"HTTP Error: %d", statusCode)` builds
(ValVoice.cpp lines 760-761). -/
def msgHttpError (code : Nat) : Wstr :=
  msgHttpErrorHead ++ Nat.toDigits 10 code

def msgEmptyAudio : Wstr := "Received empty audio data".toList

def msgSessionFail : Wstr := "Failed to create HTTP session".toList

def msgConnectFail : Wstr := "Failed to connect to Cartesia.ai".toList

def msgSaveFail : Wstr := "Failed to save audio file.".toList

def msgReqFail : Wstr := "TTS request failed.".toList

def msgConnFailUi : Wstr := "Failed to connect to TTS server.".toList

def msgEnterText : Wstr := "Please enter text to speak.".toList

/-- Observable outcome of one `SendTtsRequest` call (ValVoice.cpp lines
698-784): the boolean return, the final content of the by-reference
`audioData` buffer, the `LogTtsError` entries written (context, message),
whether the "API Key Required" message box was shown, whether
`WinHttpSendRequest` was invoked, and the request that was built. -/
structure TtsResult where
  ok : Bool
  audioData : Bytes
  logs : List (Wstr × Wstr)
  apiKeyPrompt : Bool
  requestSent : Bool
  request : Option HttpRequest
deriving DecidableEq, Repr

/-- Model of `SendTtsRequest` (ValVoice.cpp lines 698-784), branch for
branch: empty-key guard, `WinHttpOpenRequest`, `WinHttpSendRequest`,
`WinHttpReceiveResponse`, status check, read loop, empty-body check. -/
def SendTtsRequest (apiKey text voiceId : Wstr) (env : TtsEnv)
    (audioData : Bytes) : TtsResult :=
  if apiKey = [] then
    { ok := false, audioData := audioData, logs := [(ctxAPI, msgNoKey)],
      apiKeyPrompt := true, requestSent := false, request := none }
  else if env.openRequestOk = false then
    { ok := false, audioData := audioData, logs := [(ctxRequest, msgCreateFail)],
      apiKeyPrompt := false, requestSent := false, request := none }
  else
    let req := buildTtsRequest apiKey text voiceId
    if env.sendOk = false then
      { ok := false, audioData := audioData, logs := [(ctxRequest, msgSendFail)],
        apiKeyPrompt := false, requestSent := true, request := some req }
    else if env.receiveOk = false then
      { ok := false, audioData := audioData, logs := [(ctxResponse, msgRecvFail)],
        apiKeyPrompt := false, requestSent := true, request := some req }
    else if env.statusCode ≠ 200 then
      { ok := false, audioData := audioData,
        logs := [(ctxAPI, msgHttpError env.statusCode)],
        apiKeyPrompt := false, requestSent := true, request := some req }
    else
      let d := audioData ++ readLoopBytes env.readSteps
      if d = [] then
        { ok := false, audioData := d, logs := [(ctxResponse, msgEmptyAudio)],
          apiKeyPrompt := false, requestSent := true, request := some req }
      else
        { ok := true, audioData := d, logs := [],
          apiKeyPrompt := false, requestSent := true, request := some req }

/-- Environment behaviour of the whole speak pipeline: session/connect
handle creation, the request environment, and the audio-file write. -/
structure UiEnv where
  sessionOk : Bool
  connectOk : Bool
  tts : TtsEnv
  saveOk : Bool
deriving DecidableEq, Repr

def cartesiaHost : Wstr := "api.cartesia.ai".toList

/-- Model of `CreateTtsConnection` (ValVoice.cpp lines 680-695): returns the
connection handle (host, port; the source hard-codes `api.cartesia.ai`, 443
regardless of its parameters) plus the `LogTtsError` entries written. -/
def CreateTtsConnection (server : Wstr) (port : Nat) (env : UiEnv) :
    Option (Wstr × Nat) × List (Wstr × Wstr) :=
  if env.sessionOk = false then
    (none, [(ctxConnection, msgSessionFail)])
  else if env.connectOk = false then
    (none, [(ctxConnection, msgConnectFail)])
  else
    (some (cartesiaHost, 443), [])

/-- Observable outcome of one `SpeakFromUI` call (ValVoice.cpp lines
182-222): whether the "Please enter text to speak." notice was shown,
whether `CreateTtsConnection` ran, the voice id read from `voiceProfiles`,
whether `WinHttpSendRequest` was invoked, whether the API-key prompt was
shown, whether `SaveAudioToFile` ran / succeeded, whether playback and the
file delete happened, and all `LogTtsError` entries in order. -/
structure SpeakResult where
  emptyInputNotice : Bool
  connectionAttempted : Bool
  usedVoice : Option Wstr
  requestSent : Bool
  apiKeyPrompt : Bool
  fileWriteAttempted : Bool
  fileSaved : Bool
  played : Bool
  fileDeleted : Bool
  logs : List (Wstr × Wstr)
deriving DecidableEq, Repr

/-- Model of `SpeakFromUI` (ValVoice.cpp lines 182-222): empty-text guard,
voice-index clamp and `voiceProfiles[sel]` read, then the worker body
(connection, request, save, play, delete, error logging). -/
def SpeakFromUI (apiKey text : Wstr) (sel : Int) (env : UiEnv) : SpeakResult :=
  if text = [] then
    { emptyInputNotice := true, connectionAttempted := false, usedVoice := none,
      requestSent := false, apiKeyPrompt := false, fileWriteAttempted := false,
      fileSaved := false, played := false, fileDeleted := false, logs := [] }
  else
    let usedVoice := (voiceProfiles.get? (selectVoiceIndex sel).toNat).map
      VoiceProfile.cartesiaVoiceId
    let v := usedVoice.getD []
    let conn := CreateTtsConnection cartesiaHost 443 env
    match conn.1 with
    | some _ =>
      let r := SendTtsRequest apiKey text v env.tts []
      if r.ok then
        if env.saveOk then
          { emptyInputNotice := false, connectionAttempted := true,
            usedVoice := usedVoice, requestSent := r.requestSent,
            apiKeyPrompt := r.apiKeyPrompt, fileWriteAttempted := true,
            fileSaved := true, played := true, fileDeleted := true,
            logs := conn.2 ++ r.logs }
        else
          { emptyInputNotice := false, connectionAttempted := true,
            usedVoice := usedVoice, requestSent := r.requestSent,
            apiKeyPrompt := r.apiKeyPrompt, fileWriteAttempted := true,
            fileSaved := false, played := false, fileDeleted := false,
            logs := conn.2 ++ r.logs ++ [(ctxTTS, msgSaveFail)] }
      else
        { emptyInputNotice := false, connectionAttempted := true,
          usedVoice := usedVoice, requestSent := r.requestSent,
          apiKeyPrompt := r.apiKeyPrompt, fileWriteAttempted := false,
          fileSaved := false, played := false, fileDeleted := false,
          logs := conn.2 ++ r.logs ++ [(ctxTTS, msgReqFail)] }
    | none =>
      { emptyInputNotice := false, connectionAttempted := true,
        usedVoice := usedVoice, requestSent := false, apiKeyPrompt := false,
        fileWriteAttempted := false, fileSaved := false, played := false,
        fileDeleted := false, logs := conn.2 ++ [(ctxTTS, msgConnFailUi)] }

/-! Whitespace-insensitive comparison of JSON texts, used to compare the
body built by the code (pretty-printed raw string) with the body the spec
describes (single line): drop space and newline bytes that occur outside
double-quoted sections. -/

/-- Strip bytes 32 (space) and 10 (newline) outside quoted sections;
`inStr` tracks whether the scan is inside a double-quoted section. -/
def stripWsAux : Bool → Bytes → Bytes
  | _, [] => []
  | inStr, b :: rest =>
    if b = 34 then b :: stripWsAux (!inStr) rest
    else if inStr then b :: stripWsAux inStr rest
    else if b = 32 ∨ b = 10 then stripWsAux inStr rest
    else b :: stripWsAux inStr rest

def stripWs (bs : Bytes) : Bytes := stripWsAux false bs

/-- Quote-nesting state after scanning a byte list. -/
def wsState : Bool → Bytes → Bool
  | st, [] => st
  | st, b :: rest => wsState (if b = 34 then !st else st) rest

/-! Spec-side description of the wire protocol.  `specJsonBody` is written
from the spec's words (section 6: `\x7b"model_id": "<model>", "transcript":
"<text>", "voice": \x7b"mode": "id", "id": "<voice-id>"\x7d,
"output_format": \x7b"container": "wav", "encoding": "pcm_f32le",
"sample_rate": 44100\x7d, "language": "en"\x7d`), in compact form for the
whitespace-insensitive comparison with the body the code builds. -/

def specChunk1 : String :=
  "\x7b\"model_id\":\"sonic-2\",\"transcript\":\""

def specChunk2 : String :=
  "\",\"voice\":\x7b\"mode\":\"id\",\"id\":\""

def specChunk3 : String :=
  "\"\x7d,\"output_format\":\x7b\"container\":\"wav\",\"encoding\":\"pcm_f32le\",\"sample_rate\":44100\x7d,\"language\":\"en\"\x7d"

/-- The request body as the spec states it, with the UTF-8 encoded
transcript and voice id in place. -/
def specJsonBody (text voiceId : Wstr) : Bytes :=
  strBytes specChunk1 ++ WideToUtf8 text ++ strBytes specChunk2 ++
    WideToUtf8 voiceId ++ strBytes specChunk3

/-! Helper lemmas about the line splitter, the prefix test, the
whitespace stripper and UTF-8 encoding. -/

theorem startsWithKey_append (key rest : Wstr) :
    startsWithKey key (key ++ rest) = true := by
  induction key with
  | nil => rfl
  | cons c cs ih => simp [startsWithKey, ih]

theorem getLinesAux_append (id rest acc : Wstr) (h : '\n' ∉ id) :
    getLinesAux acc (id ++ '\n' :: rest) =
      (acc.reverse ++ id) :: (if rest.isEmpty then [] else getLinesAux [] rest) := by
  induction id generalizing acc with
  | nil => simp [getLinesAux]
  | cons c cs ih =>
    have hc : c ≠ '\n' := fun e => h (by simp [e])
    have hcs : '\n' ∉ cs := fun m => h (List.mem_cons_of_mem _ m)
    simp [getLinesAux, hc, ih (c :: acc) hcs]

theorem getLines_append (id rest : Wstr) (h : '\n' ∉ id) :
    getLines (id ++ '\n' :: rest) = id :: getLines rest := by
  have key : getLinesAux [] (id ++ '\n' :: rest) =
      id :: (if rest.isEmpty then [] else getLinesAux [] rest) := by
    simpa using getLinesAux_append id rest [] h
  have hL : getLines (id ++ '\n' :: rest) = getLinesAux [] (id ++ '\n' :: rest) := by
    cases id with
    | nil => rfl
    | cons c cs => rfl
  have hR : (if rest.isEmpty then [] else getLinesAux [] rest) = getLines rest := by
    cases rest with
    | nil => rfl
    | cons c cs => rfl
  rw [hL, key, hR]

theorem wsState_append (st : Bool) (xs ys : Bytes) :
    wsState st (xs ++ ys) = wsState (wsState st xs) ys := by
  induction xs generalizing st with
  | nil => rfl
  | cons b r ih => simp [wsState, ih]

theorem stripWsAux_append (st : Bool) (xs ys : Bytes) :
    stripWsAux st (xs ++ ys) = stripWsAux st xs ++ stripWsAux (wsState st xs) ys := by
  induction xs generalizing st with
  | nil => rfl
  | cons b r ih =>
    by_cases hb : b = 34
    · simp [stripWsAux, wsState, hb, ih]
    · by_cases hs : st = true
      · simp [stripWsAux, wsState, hb, hs, ih]
      · by_cases hw : b = 32 ∨ b = 10
        · simp [stripWsAux, wsState, hb, hs, hw, ih]
        · simp [stripWsAux, wsState, hb, hs, hw, ih]

theorem stripWsAux_inStr (xs : Bytes) (h : ∀ b ∈ xs, b ≠ 34) :
    stripWsAux true xs = xs := by
  induction xs with
  | nil => rfl
  | cons b r ih =>
    have hb := h b (by simp)
    simp [stripWsAux, hb, ih (fun x hx => h x (by simp [hx]))]

theorem wsState_inStr (xs : Bytes) (h : ∀ b ∈ xs, b ≠ 34) :
    wsState true xs = true := by
  induction xs with
  | nil => rfl
  | cons b r ih =>
    have hb := h b (by simp)
    simp [wsState, hb, ih (fun x hx => h x (by simp [hx]))]

theorem utf8EncodeChar_mem (c : Char) (b : Nat) (hb : b ∈ utf8EncodeChar c) :
    b = c.toNat ∨ 128 ≤ b := by
  by_cases h1 : c.toNat < 128
  · simp [utf8EncodeChar, h1] at hb
    exact Or.inl hb
  · by_cases h2 : c.toNat < 2048
    · simp [utf8EncodeChar, h1, h2] at hb
      rcases hb with hb | hb <;> omega
    · by_cases h3 : c.toNat < 65536
      · simp [utf8EncodeChar, h1, h2, h3] at hb
        rcases hb with hb | hb | hb <;> omega
      · simp [utf8EncodeChar, h1, h2, h3] at hb
        rcases hb with hb | hb | hb | hb <;> omega

theorem wideToUtf8_no_quote (t : Wstr) (h : ∀ c ∈ t, c ≠ '"') :
    ∀ b ∈ WideToUtf8 t, b ≠ 34 := by
  intro b hb
  rw [WideToUtf8, List.mem_flatMap] at hb
  obtain ⟨c, hc, hbc⟩ := hb
  rcases utf8EncodeChar_mem c b hbc with h1 | h1
  · subst h1
    intro e
    apply h c hc
    apply Char.eq_of_val_eq
    apply UInt32.eq_of_toBitVec_eq
    apply BitVec.eq_of_toNat_eq
    exact e
  · omega

theorem eraseIdx_append_last (L : List Wstr) (id : Wstr) :
    (L ++ [id]).eraseIdx L.length = L := by
  induction L with
  | nil => rfl
  | cons x xs ih => simp [List.eraseIdx, ih]

/-! Concrete inputs used by counterexamples and witnesses. -/

def helloW : Wstr := "hello".toList

def hiW : Wstr := "hi".toList

def keyW : Wstr := "k".toList

def uVal : Wstr := "u".toList

def aVal : Wstr := "A".toList

def bVal : Wstr := "B".toList

/-- Settings exported: apiKey is "A". -/
def sExport : Settings :=
  { userId := uVal, isPremium := true, pttKey := 'K', apiKey := aVal }

/-- Settings state of the loading process before the load: apiKey is "B". -/
def sLoad : Settings :=
  { userId := [], isPremium := false, pttKey := 'V', apiKey := bVal }

/-- Environment in which every external call succeeds and the response
delivers one audio byte. -/
def envAllOk : UiEnv :=
  { sessionOk := true, connectOk := true,
    tts := { openRequestOk := true, sendOk := true, receiveOk := true,
             statusCode := 200, readSteps := [ReadStep.avail [7]] },
    saveOk := true }

/-- Environment in which the server answers with HTTP status 404. -/
def env404 : UiEnv :=
  { sessionOk := true, connectOk := true,
    tts := { openRequestOk := true, sendOk := true, receiveOk := true,
             statusCode := 404, readSteps := [ReadStep.avail [7]] },
    saveOk := true }

/-- Environment with a success status but a zero-byte response body. -/
def envEmptyBody : TtsEnv :=
  { openRequestOk := true, sendOk := true, receiveOk := true,
    statusCode := 200, readSteps := [] }

/-- C1: the claim states that exporting the settings and loading them back
restores all four fields, the API key included.  The code violates this:
`LoadSettingsFromFile` ignores `CartesiaApiKey=` lines (the branch is
commented out at ValVoice.cpp lines 159-162, although line 57 documents
that the key "Will be loaded from settings" and `ExportSettingsToFile`
writes it).  Loading the exported file into a process whose key is "B"
restores userId, premium flag and PTT key, but leaves the key "B" instead
of the exported "A". -/
theorem c1_apiKey_not_reloaded :
    LoadSettingsFromFile sLoad (ExportSettingsToFile sExport) =
      { userId := uVal, isPremium := true, pttKey := 'K', apiKey := bVal } ∧
    (LoadSettingsFromFile sLoad (ExportSettingsToFile sExport)).apiKey ≠
      sExport.apiKey := by
  decide

/-- C2 (amended): only for exactly-empty input text does `SpeakFromUI` stop
with the empty-input notice before any connection, request, file write or
playback, writing no log entries. -/
theorem c2_empty_text_no_network (apiKey : Wstr) (sel : Int) (env : UiEnv) :
    SpeakFromUI apiKey [] sel env =
      { emptyInputNotice := true, connectionAttempted := false,
        usedVoice := none, requestSent := false, apiKeyPrompt := false,
        fileWriteAttempted := false, fileSaved := false, played := false,
        fileDeleted := false, logs := [] } := by
  rfl

/-- C2 (counterexample): the claim also covers whitespace-only text, but the
guard in `SpeakFromUI` is `wcslen(text) == 0`, so a single-space input is
not intercepted: no empty-input notice is shown and the network pipeline
runs (connection attempted, request sent, audio played). -/
theorem c2_whitespace_text_reaches_network :
    (SpeakFromUI keyW [' '] 0 envAllOk).emptyInputNotice = false ∧
    (SpeakFromUI keyW [' '] 0 envAllOk).connectionAttempted = true ∧
    (SpeakFromUI keyW [' '] 0 envAllOk).requestSent = true ∧
    (SpeakFromUI keyW [' '] 0 envAllOk).played = true := by
  decide

/-- C10: a `PTTKey=` line with an empty value leaves the whole settings
state (in particular the push-to-talk key) unchanged, and a `PTTKey=` line
with a non-empty value sets the push-to-talk key to exactly the first
character of the value. -/
theorem c10_pttkey_first_char (s : Settings) (c : Char) (cs : Wstr) :
    applyLine s pttKeyKey = s ∧
    applyLine s (pttKeyKey ++ c :: cs) = { s with pttKey := c } := by
  constructor
  · rfl
  · rfl

/-- C3: with the API key unset (empty string) and the text non-empty, the
request layer stops at the key guard: the "configure your API key" prompt
is shown, no request is ever sent, no audio file write or playback happens,
and the only log entries are the missing-key entry and the caller's
"TTS request failed." entry. -/
theorem c3_missing_key_short_circuits (text : Wstr) (sel : Int) (env : UiEnv)
    (ht : text ≠ []) (hs : env.sessionOk = true) (hc : env.connectOk = true) :
    (SpeakFromUI [] text sel env).apiKeyPrompt = true ∧
    (SpeakFromUI [] text sel env).requestSent = false ∧
    (SpeakFromUI [] text sel env).fileWriteAttempted = false ∧
    (SpeakFromUI [] text sel env).fileSaved = false ∧
    (SpeakFromUI [] text sel env).played = false ∧
    (SpeakFromUI [] text sel env).logs =
      [(ctxAPI, msgNoKey), (ctxTTS, msgReqFail)] := by
  simp [SpeakFromUI, CreateTtsConnection, SendTtsRequest, ht, hs, hc]

theorem c3_missing_key_short_circuits_witness :
    helloW ≠ [] ∧ envAllOk.sessionOk = true ∧ envAllOk.connectOk = true ∧
    ((SpeakFromUI [] helloW 0 envAllOk).apiKeyPrompt = true ∧
     (SpeakFromUI [] helloW 0 envAllOk).requestSent = false ∧
     (SpeakFromUI [] helloW 0 envAllOk).fileWriteAttempted = false ∧
     (SpeakFromUI [] helloW 0 envAllOk).fileSaved = false ∧
     (SpeakFromUI [] helloW 0 envAllOk).played = false ∧
     (SpeakFromUI [] helloW 0 envAllOk).logs =
       [(ctxAPI, msgNoKey), (ctxTTS, msgReqFail)]) :=
  ⟨by decide, rfl, rfl,
    c3_missing_key_short_circuits helloW 0 envAllOk (by decide) rfl rfl⟩

/-- C4: the clamped combo-box index is always a valid index into
`voiceProfiles` (an out-of-range selection falls back to index 0), and for
non-empty text `SpeakFromUI` reads the voice id exactly at that index, so
the array access never goes out of bounds. -/
theorem c4_voice_index_in_bounds (apiKey text : Wstr) (sel : Int) (env : UiEnv)
    (ht : text ≠ []) :
    (selectVoiceIndex sel).toNat < voiceProfiles.length ∧
    ((sel < 0 ∨ kVoiceCount ≤ sel) → selectVoiceIndex sel = 0) ∧
    (SpeakFromUI apiKey text sel env).usedVoice =
      (voiceProfiles.get? (selectVoiceIndex sel).toNat).map
        VoiceProfile.cartesiaVoiceId ∧
    ((SpeakFromUI apiKey text sel env).usedVoice).isSome = true := by
  have hlen : voiceProfiles.length = 1 := rfl
  have hk : kVoiceCount = 1 := rfl
  have hbound : (selectVoiceIndex sel).toNat < voiceProfiles.length := by
    unfold selectVoiceIndex
    rw [hk, hlen]
    split_ifs with h
    · simp
    · omega
  have hvoice : (SpeakFromUI apiKey text sel env).usedVoice =
      (voiceProfiles.get? (selectVoiceIndex sel).toNat).map
        VoiceProfile.cartesiaVoiceId := by
    simp only [SpeakFromUI, if_neg ht]
    split
    · split_ifs <;> rfl
    · rfl
  refine ⟨hbound, ?_, hvoice, ?_⟩
  · intro h
    unfold selectVoiceIndex
    rw [if_pos h]
  · rw [hvoice]
    have h0 : (selectVoiceIndex sel).toNat = 0 := by
      rw [hlen] at hbound
      omega
    rw [h0]
    rfl

theorem c4_voice_index_in_bounds_witness :
    hiW ≠ [] ∧
    ((selectVoiceIndex (-3)).toNat < voiceProfiles.length ∧
     (((-3 : Int) < 0 ∨ kVoiceCount ≤ (-3 : Int)) → selectVoiceIndex (-3) = 0) ∧
     (SpeakFromUI keyW hiW (-3) envAllOk).usedVoice =
       (voiceProfiles.get? (selectVoiceIndex (-3)).toNat).map
         VoiceProfile.cartesiaVoiceId ∧
     ((SpeakFromUI keyW hiW (-3) envAllOk).usedVoice).isSome = true) :=
  ⟨by decide, c4_voice_index_in_bounds keyW hiW (-3) envAllOk (by decide)⟩

/-- C7: saving a block list of non-empty, newline-free identifiers and
loading it back yields exactly the same list, and adding a non-empty
identifier (pushed at the back) and then removing it at its index restores
the prior list exactly. -/
theorem c7_blocklist_roundtrip (L : List Wstr) (id : Wstr)
    (h : ∀ x ∈ L, x ≠ [] ∧ '\n' ∉ x) (hid : id ≠ []) :
    LoadBlockedIds (SaveBlockedIds L) = L ∧
    blockRemove (blockAdd L id) L.length = L := by
  constructor
  · induction L with
    | nil => rfl
    | cons x xs ih =>
      obtain ⟨hx, hnl⟩ := h x (by simp)
      have hxs : ∀ y ∈ xs, y ≠ [] ∧ '\n' ∉ y := fun y hy => h y (by simp [hy])
      show LoadBlockedIds (x ++ '\n' :: SaveBlockedIds xs) = x :: xs
      have ihx := ih hxs
      unfold LoadBlockedIds at ihx ⊢
      rw [getLines_append x _ hnl]
      simp only [ne_eq, decide_not] at ihx
      simp [List.filter_cons, hx, ihx]
  · unfold blockRemove blockAdd
    rw [if_neg hid]
    exact eraseIdx_append_last L id

theorem c7_blocklist_roundtrip_witness :
    (∀ x ∈ [uVal, hiW], x ≠ [] ∧ '\n' ∉ x) ∧ keyW ≠ [] ∧
    (LoadBlockedIds (SaveBlockedIds [uVal, hiW]) = [uVal, hiW] ∧
     blockRemove (blockAdd [uVal, hiW] keyW) ([uVal, hiW].length) = [uVal, hiW]) :=
  ⟨by decide, by decide,
    c7_blocklist_roundtrip [uVal, hiW] keyW (by decide) (by decide)⟩

/-- C9: starting from an empty buffer, `SendTtsRequest` returns `true`
exactly when the buffer is non-empty on return: every early failure path
leaves the buffer empty and returns `false`, and a `true` return always
comes with at least one accumulated audio byte. -/
theorem c9_success_iff_nonempty_buffer (apiKey text voiceId : Wstr)
    (env : TtsEnv) :
    (SendTtsRequest apiKey text voiceId env []).ok = true ↔
      (SendTtsRequest apiKey text voiceId env []).audioData ≠ [] := by
  by_cases hd : readLoopBytes env.readSteps = [] <;>
    (unfold SendTtsRequest; split_ifs <;> simp_all)

/-- C5: when the response is received with a status other than 200,
`SendTtsRequest` returns `false`, logs an error carrying the numeric status
code, and accumulates no body bytes into the audio buffer; consequently
`SpeakFromUI` neither writes nor plays an audio file for that request. -/
theorem c5_non200_fails_no_audio (apiKey text voiceId : Wstr) (sel : Int)
    (env : UiEnv) (buf : Bytes)
    (hk : apiKey ≠ []) (ht : text ≠ [])
    (hs : env.sessionOk = true) (hc : env.connectOk = true)
    (ho : env.tts.openRequestOk = true) (hsend : env.tts.sendOk = true)
    (hr : env.tts.receiveOk = true) (hst : env.tts.statusCode ≠ 200) :
    (SendTtsRequest apiKey text voiceId env.tts buf).ok = false ∧
    (SendTtsRequest apiKey text voiceId env.tts buf).audioData = buf ∧
    (SendTtsRequest apiKey text voiceId env.tts buf).logs =
      [(ctxAPI, msgHttpError env.tts.statusCode)] ∧
    (SpeakFromUI apiKey text sel env).fileWriteAttempted = false ∧
    (SpeakFromUI apiKey text sel env).fileSaved = false ∧
    (SpeakFromUI apiKey text sel env).played = false := by
  simp [SpeakFromUI, CreateTtsConnection, SendTtsRequest, hk, ht, hs, hc, ho,
    hsend, hr, hst]

theorem c5_non200_fails_no_audio_witness :
    keyW ≠ [] ∧ hiW ≠ [] ∧ env404.sessionOk = true ∧ env404.connectOk = true ∧
    env404.tts.openRequestOk = true ∧ env404.tts.sendOk = true ∧
    env404.tts.receiveOk = true ∧ env404.tts.statusCode ≠ 200 ∧
    ((SendTtsRequest keyW hiW reynaId env404.tts []).ok = false ∧
     (SendTtsRequest keyW hiW reynaId env404.tts []).audioData = [] ∧
     (SendTtsRequest keyW hiW reynaId env404.tts []).logs =
       [(ctxAPI, msgHttpError env404.tts.statusCode)] ∧
     (SpeakFromUI keyW hiW 0 env404).fileWriteAttempted = false ∧
     (SpeakFromUI keyW hiW 0 env404).fileSaved = false ∧
     (SpeakFromUI keyW hiW 0 env404).played = false) :=
  ⟨by decide, by decide, rfl, rfl, rfl, rfl, rfl, by decide,
    c5_non200_fails_no_audio keyW hiW reynaId 0 env404 [] (by decide)
      (by decide) rfl rfl rfl rfl rfl (by decide)⟩

/-- C6: a success-status response whose body delivers exactly zero bytes
makes `SendTtsRequest` return `false` with the empty-audio log entry rather
than succeed; and (last conjunct) in every environment a `true` return
comes with a non-empty audio payload. -/
theorem c6_empty_body_fails (apiKey text voiceId : Wstr) (env : TtsEnv)
    (hk : apiKey ≠ []) (ho : env.openRequestOk = true)
    (hsend : env.sendOk = true) (hr : env.receiveOk = true)
    (hst : env.statusCode = 200)
    (hb : readLoopBytes env.readSteps = []) :
    (SendTtsRequest apiKey text voiceId env []).ok = false ∧
    (SendTtsRequest apiKey text voiceId env []).logs =
      [(ctxResponse, msgEmptyAudio)] ∧
    (∀ env2 : TtsEnv, (SendTtsRequest apiKey text voiceId env2 []).ok = true →
      (SendTtsRequest apiKey text voiceId env2 []).audioData ≠ []) := by
  refine ⟨?_, ?_, ?_⟩
  · simp [SendTtsRequest, hk, ho, hsend, hr, hst, hb]
  · simp [SendTtsRequest, hk, ho, hsend, hr, hst, hb]
  · intro env2
    by_cases hd : readLoopBytes env2.readSteps = [] <;>
      (unfold SendTtsRequest; split_ifs <;> simp_all)

theorem c6_empty_body_fails_witness :
    keyW ≠ [] ∧ envEmptyBody.openRequestOk = true ∧
    envEmptyBody.sendOk = true ∧ envEmptyBody.receiveOk = true ∧
    envEmptyBody.statusCode = 200 ∧ readLoopBytes envEmptyBody.readSteps = [] ∧
    ((SendTtsRequest keyW hiW reynaId envEmptyBody []).ok = false ∧
     (SendTtsRequest keyW hiW reynaId envEmptyBody []).logs =
       [(ctxResponse, msgEmptyAudio)] ∧
     (∀ env2 : TtsEnv, (SendTtsRequest keyW hiW reynaId env2 []).ok = true →
       (SendTtsRequest keyW hiW reynaId env2 []).audioData ≠ [])) :=
  ⟨by decide, rfl, rfl, rfl, rfl, by decide,
    c6_empty_body_fails keyW hiW reynaId envEmptyBody (by decide) rfl rfl rfl
      rfl (by decide)⟩

/-- C8: the remote request is an HTTPS (`WINHTTP_FLAG_SECURE`) POST to
`/tts/bytes` on host `api.cartesia.ai` port 443, carries the
`Content-Type: application/json`, `Cartesia-Version` and `X-API-Key`
headers, and its JSON body — compared whitespace-insensitively (outside
string literals) with the body the spec describes — has exactly the fields
`model_id "sonic-2"`, `transcript` = UTF-8 of the text, `voice
\x7bmode "id", id = voice id\x7d`, `output_format \x7bwav, pcm_f32le,
44100\x7d` and `language "en"`, for any text and voice id free of the
double-quote character. -/
theorem c8_request_shape (apiKey text voiceId : Wstr) (env : UiEnv)
    (envT : TtsEnv) (buf : Bytes)
    (hk : apiKey ≠ []) (ho : envT.openRequestOk = true)
    (hs : env.sessionOk = true) (hc : env.connectOk = true)
    (htq : ∀ c ∈ text, c ≠ '"') (hvq : ∀ c ∈ voiceId, c ≠ '"') :
    (CreateTtsConnection cartesiaHost 443 env).1 = some (cartesiaHost, 443) ∧
    (SendTtsRequest apiKey text voiceId envT buf).request =
      some (buildTtsRequest apiKey text voiceId) ∧
    (buildTtsRequest apiKey text voiceId).reqMethod = methodPOST ∧
    (buildTtsRequest apiKey text voiceId).path = ttsPath ∧
    (buildTtsRequest apiKey text voiceId).secure = true ∧
    (buildTtsRequest apiKey text voiceId).headers =
      headersChunk1 ++ apiKey ++ headersChunk2 ∧
    stripWs (buildTtsRequest apiKey text voiceId).body =
      specJsonBody text voiceId := by
  have hu := wideToUtf8_no_quote text htq
  have hv := wideToUtf8_no_quote voiceId hvq
  refine ⟨by simp [CreateTtsConnection, hs, hc], ?_, rfl, rfl, rfl, rfl, ?_⟩
  · simp only [SendTtsRequest, ho]
    rw [if_neg hk]
    simp only [Bool.true_eq_false, if_false]
    split_ifs <;> rfl
  · show stripWs (jsonBody text voiceId) = specJsonBody text voiceId
    have e1 : stripWsAux false (strBytes jsonChunk1) = strBytes specChunk1 := by
      decide
    have w1 : wsState false (strBytes jsonChunk1) = true := by decide
    have e2 : stripWsAux true (strBytes jsonChunk2) = strBytes specChunk2 := by
      decide
    have w2 : wsState true (strBytes jsonChunk2) = true := by decide
    have e3 : stripWsAux true (strBytes jsonChunk3) = strBytes specChunk3 := by
      decide
    unfold stripWs jsonBody specJsonBody
    rw [List.append_assoc, List.append_assoc, List.append_assoc]
    rw [stripWsAux_append, e1, w1]
    rw [stripWsAux_append, stripWsAux_inStr _ hu, wsState_inStr _ hu]
    rw [stripWsAux_append, e2, w2]
    rw [stripWsAux_append, stripWsAux_inStr _ hv, wsState_inStr _ hv]
    rw [e3]
    simp [List.append_assoc]

theorem c8_request_shape_witness :
    keyW ≠ [] ∧ envAllOk.tts.openRequestOk = true ∧
    envAllOk.sessionOk = true ∧ envAllOk.connectOk = true ∧
    (∀ c ∈ helloW, c ≠ '"') ∧ (∀ c ∈ reynaId, c ≠ '"') ∧
    ((CreateTtsConnection cartesiaHost 443 envAllOk).1 =
       some (cartesiaHost, 443) ∧
     (SendTtsRequest keyW helloW reynaId envAllOk.tts []).request =
       some (buildTtsRequest keyW helloW reynaId) ∧
     (buildTtsRequest keyW helloW reynaId).reqMethod = methodPOST ∧
     (buildTtsRequest keyW helloW reynaId).path = ttsPath ∧
     (buildTtsRequest keyW helloW reynaId).secure = true ∧
     (buildTtsRequest keyW helloW reynaId).headers =
       headersChunk1 ++ keyW ++ headersChunk2 ∧
     stripWs (buildTtsRequest keyW helloW reynaId).body =
       specJsonBody helloW reynaId) :=
  ⟨by decide, rfl, rfl, rfl, by decide, by decide,
    c8_request_shape keyW helloW reynaId envAllOk envAllOk.tts [] (by decide)
      rfl rfl rfl (by decide) (by decide)⟩
